import Mathlib

/-!
Shallow embedding of the authorization core of the TOC user-management API:
the data model (users, services, roles, user-service grants, tokens, audit
logs), the authentication and permission middleware, the audit wrapper, and
the controller operations that the verified properties talk about.  Each
definition mirrors one function of the JavaScript source; stateful code is
modelled by explicit store passing, MongoDB document ids by natural numbers
(a `null` ObjectId reference is `Option.none`), and fallible request
handlers return `Except APIError`.
-/

namespace TOC

/-- Error value produced by the middleware and controllers, mirroring
`APIError(message, statusCode)` from the source. -/
structure APIError where
  message : String
  status : Nat
deriving Repr, DecidableEq

/-- Principal record, from `user.model.js` (the fields the authorization
core reads; `password` holds the stored credential hash). -/
structure User where
  id : Nat
  username : String
  email : String
  password : String
  status : String
deriving Repr, DecidableEq

/-- Tenant record, from `service.model.js` (the fields the resolver reads). -/
structure Service where
  id : Nat
  name : String
  active : Bool
deriving Repr, DecidableEq

/-- Role record, from `role.model.js`: `serviceId = none` for global roles,
`permissions` is a set of opaque permission strings. -/
structure Role where
  id : Nat
  name : String
  isGlobal : Bool
  serviceId : Option Nat
  permissions : List String
deriving Repr, DecidableEq

/-- Grant record, from `userService.model.js`: links one user to one service
(`serviceId = none` is a global grant) with a set of role references and a
status in {active, suspended}. -/
structure UserService where
  id : Nat
  userId : Nat
  serviceId : Option Nat
  roles : List Nat
  status : String
deriving Repr, DecidableEq

/-- Credential record, from `token.model.js`: an opaque value, a kind in
{refresh, verification, password_reset}, an absolute expiry instant and the
issuing service from the metadata block. -/
structure Token where
  id : Nat
  userId : Nat
  token : String
  type : String
  expiresAt : Nat
  serviceId : Option Nat
deriving Repr, DecidableEq

/-- One key/value field of a JSON-ish request or response object. -/
structure Field where
  key : String
  value : String
deriving Repr, DecidableEq

/-- Response payload as seen by the audit wrapper: top-level fields plus the
optional nested `user` object whose `password` field gets redacted. -/
structure ResponseData where
  fields : List Field
  user : Option (List Field)
deriving Repr, DecidableEq

/-- Audit event record, from `auditLog.model.js` together with the `details`
object assembled in `audit.middleware.js` (`method`, `path`, `statusCode`,
optional `params`, `query`, redacted `body` and redacted `response`; an
absent object-valued detail is modelled as the empty field list). -/
structure AuditLog where
  userId : Option Nat
  serviceId : Option Nat
  action : String
  method : String
  path : String
  statusCode : Nat
  detailsParams : List Field
  detailsQuery : List Field
  detailsBody : List Field
  detailsResponse : Option ResponseData
deriving Repr, DecidableEq

/-- The persistent store: the five entity collections plus the append-only
audit collection. -/
structure Store where
  users : List User
  services : List Service
  roles : List Role
  userServices : List UserService
  tokens : List Token
  auditLogs : List AuditLog
deriving Repr, DecidableEq

/-- Payload of a verified access token: the embedded principal id and the
optional tenant id, as produced by `generateToken` in the user controller. -/
structure Decoded where
  id : Nat
  serviceId : Option Nat
deriving Repr, DecidableEq

/-- Authenticated request context assembled by the `authenticate`
middleware: `req.user`, optional `req.service`, optional `req.userService`,
and `req.userRoles`. -/
structure AuthCtx where
  user : User
  service : Option Service
  userService : Option UserService
  userRoles : List Role
deriving Repr, DecidableEq

/-- Lookup of a user by id, modelling `User.findById`. -/
def findUser (st : Store) (uid : Nat) : Option User :=
  st.users.find? (fun u => u.id == uid)

/-- Lookup of a service by id, modelling `Service.findById`. -/
def findService (st : Store) (sid : Nat) : Option Service :=
  st.services.find? (fun s => s.id == sid)

/-- Lookup of the grant for a (user, service) pair, modelling
`UserService.findOne({userId, serviceId})`. -/
def findUserService (st : Store) (uid : Nat) (sid : Option Nat) : Option UserService :=
  st.userServices.find? (fun us => us.userId == uid && us.serviceId == sid)

/-- Resolution of a list of role ids to role documents, modelling
`populate(roles)` on a grant. -/
def rolesOf (st : Store) (ids : List Nat) : List Role :=
  st.roles.filter (fun r => ids.contains r.id)

/-- Union of the role references across all grants of a user, modelling
`UserService.distinct(roles, {userId})`. -/
def distinctGrantRoles (st : Store) (uid : Nat) : List Nat :=
  ((st.userServices.filter (fun us => us.userId == uid)).map (fun us => us.roles)).flatten

/-- Global roles reachable through any grant of the user, modelling
`Role.find({_id: {in: distinct}, isGlobal: true})` in the authenticate
middleware. -/
def globalRolesOf (st : Store) (uid : Nat) : List Role :=
  st.roles.filter (fun r => (distinctGrantRoles st uid).contains r.id && r.isGlobal)

/-- Authenticate middleware from `auth.middleware.js` (after JWT
verification has yielded the decoded payload): loads the principal, checks
its status, resolves the optional tenant scope and computes the candidate
role set. -/
def authenticate (st : Store) (decoded : Decoded) : Except APIError AuthCtx :=
  match findUser st decoded.id with
  | none => .error ⟨"User not found or token is invalid.", 401⟩
  | some user =>
    if user.status != "active" then
      .error ⟨"User account is not active.", 403⟩
    else
      match decoded.serviceId with
      | some sid =>
        match findService st sid with
        | none => .error ⟨"Service not found or token is invalid.", 401⟩
        | some service =>
          if !service.active then
            .error ⟨"Service is not active.", 403⟩
          else
            match findUserService st user.id (some service.id) with
            | none => .error ⟨"User does not have access to this service.", 403⟩
            | some us =>
              if us.status != "active" then
                .error ⟨"User access to this service is not active.", 403⟩
              else
                .ok ⟨user, some service, some us, rolesOf st us.roles⟩
      | none =>
        .ok ⟨user, none, none, globalRolesOf st user.id⟩

/-- Permission gate from `auth.middleware.js` (`hasPermission`): any role
named admin short-circuits to allowed, otherwise the requested permission
must be contained in some candidate role. -/
def hasPermission (permission : String) (userRoles : Option (List Role)) : Except APIError Unit :=
  match userRoles with
  | none => .error ⟨"User roles not found.", 500⟩
  | some roles =>
    if roles.any (fun role => role.name == "admin") then
      .ok ()
    else if roles.any (fun role => role.permissions.contains permission) then
      .ok ()
    else
      .error ⟨"Access denied. Missing permission: " ++ permission, 403⟩

/-- Request data the audit wrapper reads: the resolved actor and tenant ids,
request method, path, params, query and body. -/
structure AuditReq where
  user : Option Nat
  service : Option Nat
  method : String
  path : String
  params : List Field
  query : List Field
  body : List Field
deriving Repr, DecidableEq

/-- Keys deleted from the request-body copy by the audit wrapper
(`delete bodyCopy.password` and friends in `audit.middleware.js`). -/
def sensitiveBodyKeys : List String :=
  ["password", "confirmPassword", "currentPassword", "newPassword", "apiSecret"]

/-- Keys deleted from the top level of the response copy by the audit
wrapper (`delete dataCopy.token` and friends). -/
def sensitiveResponseKeys : List String :=
  ["token", "refreshToken", "apiSecret"]

/-- Redaction of the request body performed by the audit wrapper: the five
enumerated keys are removed. -/
def redactBody (body : List Field) : List Field :=
  body.filter (fun f => !(sensitiveBodyKeys.contains f.key))

/-- Redaction of the response performed by the audit wrapper: `password` is
removed from the nested `user` object and `token`, `refreshToken` and
`apiSecret` from the top level. -/
def redactResponse (data : ResponseData) : ResponseData :=
  { fields := data.fields.filter (fun f => !(sensitiveResponseKeys.contains f.key)),
    user := data.user.map (fun u => u.filter (fun f => f.key != "password")) }

/-- Audit wrapper from `audit.middleware.js`: when the wrapped handler
responds with `res.json data` at a success status, it appends one audit
event built from the redacted request and response; a failing audit write
(`writeFails = true`) is caught, logged and swallowed.  The second component
of the result is the payload the original `res.json` finally delivers to
the client. -/
def auditLogger (action : String) (req : AuditReq) (statusCode : Nat)
    (data : Option ResponseData) (writeFails : Bool) (st : Store) :
    Store × Option ResponseData :=
  if 200 ≤ statusCode ∧ statusCode < 300 then
    if writeFails then
      (st, data)
    else
      let entry : AuditLog :=
        { userId := req.user
          serviceId := req.service
          action := action
          method := req.method
          path := req.path
          statusCode := statusCode
          detailsParams := req.params
          detailsQuery := req.query
          detailsBody := redactBody req.body
          detailsResponse := data.map redactResponse }
      ({ st with auditLogs := st.auditLogs ++ [entry] }, data)
  else
    (st, data)

/-- Deletion of one token document, modelling `tokenDoc.delete()`. -/
def deleteToken (st : Store) (t : Token) : Store :=
  { st with tokens := st.tokens.filter (fun x => !(x.id == t.id)) }

/-- Lookup of a stored refresh token by its opaque value, modelling
`Token.findOne({token, type: refresh})`. -/
def findRefreshToken (st : Store) (value : String) : Option Token :=
  st.tokens.find? (fun t => t.token == value && t.type == "refresh")

/-- Context attached by the refresh-token middleware: `req.user`,
`req.token` and the optional `req.service`. -/
structure RefreshCtx where
  user : User
  token : Token
  service : Option Service
deriving Repr, DecidableEq

/-- Refresh-token middleware from `auth.middleware.js`
(`authenticateRefreshToken`): looks the token up by value and kind, deletes
it when expired or when its user no longer exists, requires an active user,
and resolves the optional service from the token metadata. -/
def authenticateRefreshToken (st : Store) (refreshTokenValue : Option String) (now : Nat) :
    Store × Except APIError RefreshCtx :=
  match refreshTokenValue with
  | none => (st, .error ⟨"Refresh token is required.", 400⟩)
  | some value =>
    match findRefreshToken st value with
    | none => (st, .error ⟨"Invalid refresh token.", 401⟩)
    | some tokenDoc =>
      if tokenDoc.expiresAt < now then
        (deleteToken st tokenDoc, .error ⟨"Refresh token expired.", 401⟩)
      else
        match findUser st tokenDoc.userId with
        | none => (deleteToken st tokenDoc, .error ⟨"User not found.", 401⟩)
        | some user =>
          if user.status != "active" then
            (st, .error ⟨"User account is not active.", 403⟩)
          else
            let service :=
              match tokenDoc.serviceId with
              | some sid =>
                match findService st sid with
                | some s => if s.active then some s else none
                | none => none
              | none => none
            (st, .ok ⟨user, tokenDoc, service⟩)

/-- Signed access-token payload produced by `generateToken` in
`user.controller.js` (the `jwt.sign` payload: user id, username, optional
service id). -/
structure AccessToken where
  id : Nat
  username : String
  serviceId : Option Nat
deriving Repr, DecidableEq

/-- Access-token issuance, modelling `generateToken(user, serviceId)`. -/
def generateToken (user : User) (serviceId : Option Nat) : AccessToken :=
  ⟨user.id, user.username, serviceId⟩

/-- Full refresh-token exchange: the `authenticateRefreshToken` middleware
followed by the `refreshToken` controller, which issues a new access token
for the attached user and optional service. -/
def refreshTokenExchange (st : Store) (refreshTokenValue : Option String) (now : Nat) :
    Store × Except APIError AccessToken :=
  match authenticateRefreshToken st refreshTokenValue now with
  | (st2, .error e) => (st2, .error e)
  | (st2, .ok ctx) => (st2, .ok (generateToken ctx.user (ctx.service.map (fun s => s.id))))

/-- Password change from `user.controller.js` (`changePassword`): verifies
the current password through the opaque matching capability, stores the
hash of the new password, and bulk-deletes all refresh tokens of the user
(`Token.deleteMany({userId, type: refresh})`). -/
def changePassword (pwMatches : String → String → Bool) (hashPw : String → String)
    (st : Store) (uid : Nat) (currentPassword newPassword : String) :
    Store × Except APIError Unit :=
  match findUser st uid with
  | none => (st, .error ⟨"User not found", 404⟩)
  | some user =>
    if !(pwMatches currentPassword user.password) then
      (st, .error ⟨"Current password is incorrect", 401⟩)
    else
      let newUsers :=
        st.users.map (fun u => if u.id == uid then { u with password := hashPw newPassword } else u)
      let newTokens :=
        st.tokens.filter (fun t => !(t.userId == uid && t.type == "refresh"))
      ({ st with users := newUsers, tokens := newTokens }, .ok ())

/-- Grant creation from `userService.controller.js` (`assignUserToService`):
a `null` service id fails ObjectId validation, both referenced entities must
exist, a second grant for the same (user, service) pair is refused, role
references must be global or belong to the service, and the new grant is
persisted with status defaulting to active.  `freshId` stands for the
generated document id; the opaque `customData` block is not modelled. -/
def assignUserToService (st : Store) (freshId : Nat) (userId : Nat) (serviceId : Option Nat)
    (roleIds : List Nat) (status : Option String) : Store × Except APIError UserService :=
  match serviceId with
  | none => (st, .error ⟨"Invalid service ID", 400⟩)
  | some sid =>
    match findUser st userId with
    | none => (st, .error ⟨"User not found", 404⟩)
    | some _ =>
      match findService st sid with
      | none => (st, .error ⟨"Service not found", 404⟩)
      | some _ =>
        match findUserService st userId (some sid) with
        | some _ => (st, .error ⟨"User is already assigned to this service", 400⟩)
        | none =>
          let validRoles := st.roles.filter
            (fun r => roleIds.contains r.id && (r.serviceId == some sid || r.isGlobal))
          if roleIds.length != 0 && validRoles.length != roleIds.length then
            (st, .error ⟨"One or more roles are invalid or do not belong to this service", 400⟩)
          else
            let us : UserService := ⟨freshId, userId, some sid, roleIds, status.getD "active"⟩
            ({ st with userServices := st.userServices ++ [us] }, .ok us)

/-- Role deletion from `role.controller.js` (`deleteRole`): the global admin
and global user roles are protected, a role referenced by at least one grant
is refused with the in-use error, and otherwise the role document is
removed. -/
def deleteRole (st : Store) (roleId : Nat) : Store × Except APIError Unit :=
  match st.roles.find? (fun r => r.id == roleId) with
  | none => (st, .error ⟨"Role not found", 404⟩)
  | some role =>
    if role.name == "admin" && role.isGlobal then
      (st, .error ⟨"Cannot delete the global admin role", 403⟩)
    else if role.name == "user" && role.isGlobal then
      (st, .error ⟨"Cannot delete the global user role", 403⟩)
    else
      let usersWithRole := (st.userServices.filter (fun us => us.roles.contains role.id)).length
      if usersWithRole > 0 then
        (st, .error ⟨"Cannot delete role " ++ role.name ++ " because it is assigned to " ++
          toString usersWithRole ++ " users", 400⟩)
      else
        ({ st with roles := st.roles.filter (fun r => !(r.id == role.id)) }, .ok ())

/-- Creation of a password-reset credential, modelling
`Token.generatePasswordResetToken`: a fresh random value (passed in as
`value`), kind password_reset, expiry one hour from now. -/
def generatePasswordResetToken (st : Store) (tid : Nat) (uid : Nat) (sid : Option Nat)
    (value : String) (now : Nat) : Store × Token :=
  let t : Token := ⟨tid, uid, value, "password_reset", now + 3600, sid⟩
  ({ st with tokens := st.tokens ++ [t] }, t)

/-- Password-reset request from `user.controller.js` (`forgotPassword`):
responds 200 whether or not the email pwMatches a user, and when it does, the
generated reset-token value is included in the response body
(`resetToken: resetToken.token`). -/
def forgotPassword (st : Store) (email : Option String) (svc : Option Nat)
    (tid : Nat) (value : String) (now : Nat) : Store × Except APIError ResponseData :=
  match email with
  | none => (st, .error ⟨"Email is required", 400⟩)
  | some e =>
    match st.users.find? (fun u => u.email == e) with
    | none =>
      (st, .ok ⟨[⟨"success", "true"⟩,
                 ⟨"message", "If a user with that email exists, a password reset link has been sent"⟩],
                none⟩)
    | some user =>
      let issued := generatePasswordResetToken st tid user.id svc value now
      (issued.1,
       .ok ⟨[⟨"success", "true"⟩,
             ⟨"message", "If a user with that email exists, a password reset link has been sent"⟩,
             ⟨"resetToken", issued.2.token⟩],
            none⟩)

/-- Pairwise uniqueness of the (userId, serviceId) pair across grants: the
invariant enforced by the unique compound index declared in
`userService.model.js`. -/
def grantsPairwiseUnique (st : Store) : Prop :=
  st.userServices.Pairwise (fun a b => ¬(a.userId = b.userId ∧ a.serviceId = b.serviceId))

/-- Example principal with an active account. -/
def exAlice : User := ⟨1, "alice", "alice@x.com", "h1", "active"⟩

/-- Example principal still pending email verification. -/
def exBob : User := ⟨2, "bob", "bob@x.com", "h2", "pending"⟩

/-- Example active tenant. -/
def exBilling : Service := ⟨10, "billing", true⟩

/-- Example inactive tenant. -/
def exDormant : Service := ⟨11, "dormant", false⟩

/-- Example global admin role. -/
def exAdminRole : Role := ⟨100, "admin", true, none, ["user:read", "user:write"]⟩

/-- Example global user role. -/
def exUserRole : Role := ⟨101, "user", true, none, ["user:read"]⟩

/-- Example tenant-scoped role of the billing tenant. -/
def exEditorRole : Role := ⟨102, "editor", false, some 10, ["doc:write"]⟩

/-- Example tenant-scoped role that merely happens to be named admin. -/
def exTenantAdminRole : Role := ⟨103, "admin", false, some 10, []⟩

/-- Example grant linking alice to the billing tenant. -/
def exGrantAliceBilling : UserService := ⟨200, 1, some 10, [102, 100], "active"⟩

/-- Example global grant of alice. -/
def exGrantAliceGlobal : UserService := ⟨201, 1, none, [101], "active"⟩

/-- Example stored refresh credential of alice. -/
def exRefreshTok : Token := ⟨300, 1, "r1", "refresh", 100, none⟩

/-- Example stored verification credential of bob. -/
def exVerifyTok : Token := ⟨301, 2, "v1", "verification", 100, none⟩

/-- Example stored refresh credential of bob. -/
def exBobRefreshTok : Token := ⟨302, 2, "r2", "refresh", 100, none⟩

/-- Example store used by the concrete witnesses. -/
def exStore : Store :=
  ⟨[exAlice, exBob], [exBilling, exDormant],
   [exAdminRole, exUserRole, exEditorRole, exTenantAdminRole],
   [exGrantAliceBilling, exGrantAliceGlobal],
   [exRefreshTok, exVerifyTok, exBobRefreshTok], []⟩

/-- Context produced by authenticating alice against the billing tenant in
the example store. -/
def exCtxBilling : AuthCtx :=
  ⟨exAlice, some exBilling, some exGrantAliceBilling, [exAdminRole, exEditorRole]⟩

/-- Example audit-wrapped request hitting the refresh-token route: the
refresh token travels in the request body. -/
def exRefreshReq : AuditReq :=
  ⟨some 1, none, "POST", "/api/users/refresh-token", [], [], [⟨"refreshToken", "r1"⟩]⟩

/-- Example audit-wrapped request hitting the forgot-password route. -/
def exForgotReq : AuditReq :=
  ⟨none, none, "POST", "/api/users/forgot-password", [], [], [⟨"email", "alice@x.com"⟩]⟩

/-- Response body of the forgot-password controller for alice in the
example store (it carries the fresh reset-token value). -/
def exForgotResp : ResponseData :=
  ⟨[⟨"success", "true"⟩,
    ⟨"message", "If a user with that email exists, a password reset link has been sent"⟩,
    ⟨"resetToken", "pr1"⟩],
   none⟩

/-- Example audit-wrapped login request and its response payload. -/
def exLoginReq : AuditReq :=
  ⟨some 1, none, "POST", "/api/users/login", [], [],
   [⟨"username", "alice"⟩, ⟨"password", "pw"⟩]⟩

/-- Login response as serialized by the login controller: access token,
refresh token and a nested user object. -/
def exLoginResp : ResponseData :=
  ⟨[⟨"success", "true"⟩, ⟨"token", "jwt1"⟩, ⟨"refreshToken", "r1"⟩],
   some [⟨"username", "alice"⟩, ⟨"password", "h1"⟩]⟩

/-- Blank audit entry used as the default of `headD` on audit ledgers. -/
def exEmptyEntry : AuditLog := ⟨none, none, "", "", "", 0, [], [], [], none⟩

/-- Audit entry stored for the example login request. -/
def exLoginEntry : AuditLog :=
  ((auditLogger "user:login" exLoginReq 200 (some exLoginResp) false exStore).1.auditLogs).headD
    exEmptyEntry

/-- Store holding only the two protected global roles and no grants. -/
def exProtectedStore : Store := ⟨[], [], [exAdminRole, exUserRole], [], [], []⟩

/-- Store holding one deletable tenant role and no grants. -/
def exFreeStore : Store := ⟨[exAlice], [exBilling], [exEditorRole], [], [], []⟩

/-- Any candidate role set containing a role named admin passes the
permission gate, whatever the requested permission is: the gate tests only
the role name. -/
theorem admin_name_allows (roles : List Role) (p : String)
    (h : ∃ r ∈ roles, r.name = "admin") :
    hasPermission p (some roles) = .ok () := by
  obtain ⟨r, hr, hname⟩ := h
  have hany : roles.any (fun role => role.name == "admin") = true := by
    rw [List.any_eq_true]
    exact ⟨r, hr, by simp [hname]⟩
  simp [hasPermission, hany]

/-- C2: a principal whose resolved candidate role set contains the global
admin role passes the permission gate for every permission string,
including strings absent from every role. -/
theorem global_admin_passes_every_permission (st : Store) (d : Decoded) (ctx : AuthCtx)
    (p : String) (_hauth : authenticate st d = .ok ctx)
    (h : ∃ r ∈ ctx.userRoles, r.name = "admin" ∧ r.isGlobal = true) :
    hasPermission p (some ctx.userRoles) = .ok () := by
  obtain ⟨r, hr, hname, _⟩ := h
  exact admin_name_allows ctx.userRoles p ⟨r, hr, hname⟩

/-- Witness for C2: alice resolved against the billing tenant holds the
global admin role and passes the gate for a permission string no role
carries. -/
theorem global_admin_passes_every_permission_witness :
    hasPermission "no:such:permission" (some exCtxBilling.userRoles) = .ok () :=
  global_admin_passes_every_permission exStore ⟨1, some 10⟩ exCtxBilling
    "no:such:permission" (by rfl)
    ⟨exAdminRole, by simp [exCtxBilling], rfl, rfl⟩

/-- C10: the admin bypass tests only the role name — any candidate set
containing a role named admin, global or not, passes the gate for every
permission string. -/
theorem admin_bypass_tests_only_name (roles : List Role) (p : String)
    (h : ∃ r ∈ roles, r.name = "admin") :
    hasPermission p (some roles) = .ok () :=
  admin_name_allows roles p h

/-- Witness for C10: a tenant-scoped, non-global role named admin with an
empty permission set passes the gate for an arbitrary permission. -/
theorem admin_bypass_tests_only_name_witness :
    hasPermission "service:delete" (some [exTenantAdminRole]) = .ok () :=
  admin_bypass_tests_only_name [exTenantAdminRole] "service:delete"
    ⟨exTenantAdminRole, by simp, rfl⟩

/-- C5: the audit wrapper always delivers the original response to the
client; when the audit write goes through, exactly one audit event is
appended precisely for success-range outcomes; a non-success outcome or a
failing audit write leaves the store untouched (the failure is swallowed,
never propagated).  The embedding performs the awaited audit write the
source intends; note that the source spells that call `await
AuditLog.logAction(...)` inside the non-async `res.json` override, which
is a JavaScript syntax error at module load. -/
theorem auditLogger_appends_iff_success (action : String) (req : AuditReq) (sc : Nat)
    (data : Option ResponseData) (writeFails : Bool) (st : Store) :
    ((auditLogger action req sc data writeFails st).2 = data)
    ∧ (writeFails = true → (auditLogger action req sc data writeFails st).1 = st)
    ∧ (writeFails = false →
        (((auditLogger action req sc data writeFails st).1.auditLogs.length =
            st.auditLogs.length + 1) ↔ (200 ≤ sc ∧ sc < 300)))
    ∧ (¬(200 ≤ sc ∧ sc < 300) → (auditLogger action req sc data writeFails st).1 = st) := by
  by_cases hsc : 200 ≤ sc ∧ sc < 300 <;>
    cases writeFails <;>
    simp [auditLogger, hsc]

/-- Witness for C5: a successful login request appends exactly one audit
event to the empty ledger of the example store. -/
theorem auditLogger_appends_iff_success_witness :
    (auditLogger "user:login" exLoginReq 200 (some exLoginResp) false exStore).1.auditLogs.length =
      exStore.auditLogs.length + 1 :=
  ((auditLogger_appends_iff_success "user:login" exLoginReq 200 (some exLoginResp) false
      exStore).2.2.1 rfl).mpr (by decide)

/-- Counterexample for C9: in a store whose grant collection is empty, so
no grant references any role, deleting the global admin role still fails
with 403 and the store is left unchanged — deletion does not succeed for
every unreferenced role. -/
theorem deleteRole_unreferenced_can_fail :
    exProtectedStore.userServices = [] ∧
    deleteRole exProtectedStore 100 =
      (exProtectedStore, .error ⟨"Cannot delete the global admin role", 403⟩) :=
  ⟨rfl, rfl⟩

/-- C9 (amended): for a role other than the protected global admin and
global user roles, deletion fails with the in-use error and leaves the
store unchanged while some grant references the role, and succeeds (removing
the role document) once no grant references it; the two protected roles
always fail deletion with 403. -/
theorem deleteRole_in_use_gate (st : Store) (rid : Nat) (role : Role)
    (hfind : st.roles.find? (fun r => r.id == rid) = some role) :
    ((role.name = "admin" ∧ role.isGlobal = true) →
        deleteRole st rid = (st, .error ⟨"Cannot delete the global admin role", 403⟩))
    ∧ ((role.name = "user" ∧ role.isGlobal = true) →
        deleteRole st rid = (st, .error ⟨"Cannot delete the global user role", 403⟩))
    ∧ (¬(role.name = "admin" ∧ role.isGlobal = true) →
       ¬(role.name = "user" ∧ role.isGlobal = true) →
        ((∃ us ∈ st.userServices, role.id ∈ us.roles) →
            deleteRole st rid = (st, .error ⟨"Cannot delete role " ++ role.name ++
              " because it is assigned to " ++
              toString (st.userServices.filter (fun us => us.roles.contains role.id)).length ++
              " users", 400⟩))
        ∧ ((∀ us ∈ st.userServices, role.id ∉ us.roles) →
            deleteRole st rid =
              ({ st with roles := st.roles.filter (fun r => !(r.id == role.id)) }, .ok ()))) := by
  refine ⟨?_, ?_, ?_⟩
  · rintro ⟨h1, h2⟩
    simp [deleteRole, hfind, h1, h2]
  · rintro ⟨h1, h2⟩
    have hna : (role.name == "admin") = false := by simp [h1]
    simp [deleteRole, hfind, h1, h2, hna]
  · intro hna hnu
    have hba : (role.name == "admin" && role.isGlobal) = false := by
      by_cases h : role.name = "admin"
      · cases hg : role.isGlobal
        · simp [h, hg]
        · exact absurd ⟨h, hg⟩ hna
      · simp [h]
    have hbu : (role.name == "user" && role.isGlobal) = false := by
      by_cases h : role.name = "user"
      · cases hg : role.isGlobal
        · simp [h, hg]
        · exact absurd ⟨h, hg⟩ hnu
      · simp [h]
    constructor
    · rintro ⟨us, hus, hin⟩
      have hmem : us ∈ st.userServices.filter (fun us => us.roles.contains role.id) := by
        rw [List.mem_filter]
        exact ⟨hus, by simpa using hin⟩
      have hlen : 0 < (st.userServices.filter (fun us => us.roles.contains role.id)).length :=
        List.length_pos.mpr (List.ne_nil_of_mem hmem)
      simp only [deleteRole, hfind, hba, hbu]
      rw [if_neg (by simp), if_neg (by simp), if_pos hlen]
    · intro hall
      have hnil : st.userServices.filter (fun us => us.roles.contains role.id) = [] := by
        rw [List.filter_eq_nil_iff]
        intro us hus
        simpa using hall us hus
      simp only [deleteRole, hfind, hba, hbu]
      rw [if_neg (by simp), if_neg (by simp), if_neg (by rw [hnil]; decide)]

/-- Witness for C9: the tenant editor role is unreferenced in the small
example store, so its deletion succeeds and removes the role document. -/
theorem deleteRole_in_use_gate_witness :
    deleteRole exFreeStore 102 =
      ({ exFreeStore with roles := [] }, .ok ()) := by
  have h := ((deleteRole_in_use_gate exFreeStore 102 exEditorRole rfl).2.2
    (by simp [exEditorRole]) (by simp [exEditorRole])).2 (by simp [exFreeStore])
  simpa [exFreeStore, exEditorRole] using h

/-- C8: when the referenced user and service exist and a grant for the
(user, service) pair is already present, grant creation is refused with the
conflict error and the store is unchanged; a null service id always fails
ObjectId validation (so a duplicate global grant can never be created
through this operation); and a successful creation preserves the
at-most-one-grant-per-pair invariant. -/
theorem assignUserToService_conflict (st : Store) (fid u s : Nat)
    (rids : List Nat) (stat : Option String) :
    (findUser st u ≠ none → findService st s ≠ none →
      findUserService st u (some s) ≠ none →
        assignUserToService st fid u (some s) rids stat =
          (st, .error ⟨"User is already assigned to this service", 400⟩))
    ∧ (assignUserToService st fid u none rids stat =
        (st, .error ⟨"Invalid service ID", 400⟩))
    ∧ (∀ st2 us, grantsPairwiseUnique st →
        assignUserToService st fid u (some s) rids stat = (st2, .ok us) →
        grantsPairwiseUnique st2) := by
  refine ⟨?_, ?_, ?_⟩
  · intro h1 h2 h3
    cases hu : findUser st u with
    | none => exact absurd hu h1
    | some uu =>
      cases hs : findService st s with
      | none => exact absurd hs h2
      | some ss =>
        cases hg : findUserService st u (some s) with
        | none => exact absurd hg h3
        | some g => simp [assignUserToService, hu, hs, hg]
  · rfl
  · intro st2 us huniq heq
    cases hu : findUser st u with
    | none => simp [assignUserToService, hu] at heq
    | some uu =>
    cases hs : findService st s with
    | none => simp [assignUserToService, hu, hs] at heq
    | some ss =>
    cases hg : findUserService st u (some s) with
    | some g => simp [assignUserToService, hu, hs, hg] at heq
    | none =>
    simp only [assignUserToService, hu, hs, hg] at heq
    split at heq
    · simp at heq
    · rw [Prod.mk.injEq] at heq
      obtain ⟨hst, -⟩ := heq
      subst hst
      unfold grantsPairwiseUnique at huniq ⊢
      rw [List.pairwise_append]
      refine ⟨huniq, by simp, ?_⟩
      intro a ha b hb
      rw [List.mem_singleton] at hb
      subst hb
      rintro ⟨hau, has⟩
      have hnone := List.find?_eq_none.mp hg a ha
      apply hnone
      simp only [Bool.and_eq_true, beq_iff_eq]
      exact ⟨hau, has⟩

/-- Witness for C8: alice already holds a grant for the billing tenant in
the example store, so assigning her again is refused with the conflict
error, and assigning with a null service id fails validation. -/
theorem assignUserToService_conflict_witness :
    (assignUserToService exStore 999 1 (some 10) [] none =
      (exStore, .error ⟨"User is already assigned to this service", 400⟩)) ∧
    (assignUserToService exStore 999 1 none [] none =
      (exStore, .error ⟨"Invalid service ID", 400⟩)) :=
  ⟨(assignUserToService_conflict exStore 999 1 10 [] none).1
      (by decide) (by decide) (by decide),
   (assignUserToService_conflict exStore 999 1 10 [] none).2.1⟩

/-- C7: after a successful password change, every refresh credential of the
user is gone — looking one of them up again reports the invalid-token error
— while credentials of other kinds or other users survive unchanged. -/
theorem changePassword_revokes_refresh (pw : String → String → Bool) (hp : String → String)
    (st : Store) (uid : Nat) (cur new : String) (t : Token) (now : Nat)
    (hok : (changePassword pw hp st uid cur new).2 = .ok ())
    (_ht : t ∈ st.tokens) (_huid : t.userId = uid) (_htype : t.type = "refresh")
    (huniq : ∀ t2 ∈ st.tokens, t2.token = t.token → t2.type = "refresh" → t2.userId = uid) :
    ((authenticateRefreshToken (changePassword pw hp st uid cur new).1 (some t.token) now).2 =
        .error ⟨"Invalid refresh token.", 401⟩)
    ∧ (∀ t2 ∈ st.tokens, t2.userId = uid → t2.type = "refresh" →
        t2 ∉ (changePassword pw hp st uid cur new).1.tokens)
    ∧ (∀ t2 ∈ st.tokens, ¬(t2.userId = uid ∧ t2.type = "refresh") →
        t2 ∈ (changePassword pw hp st uid cur new).1.tokens) := by
  cases hu : findUser st uid with
  | none => simp [changePassword, hu] at hok
  | some user =>
  by_cases hm : pw cur user.password = true
  case neg => simp [changePassword, hu, hm] at hok
  case pos =>
  have hstore : (changePassword pw hp st uid cur new).1 =
      { st with
        users := st.users.map (fun u => if u.id == uid then { u with password := hp new } else u),
        tokens := st.tokens.filter (fun t2 => !(t2.userId == uid && t2.type == "refresh")) } := by
    simp [changePassword, hu, hm]
  have hnone : findRefreshToken (changePassword pw hp st uid cur new).1 t.token = none := by
    rw [hstore]
    unfold findRefreshToken
    rw [List.find?_eq_none]
    intro x hx
    simp only [List.mem_filter] at hx
    obtain ⟨hx1, hx2⟩ := hx
    intro hpred
    simp only [Bool.and_eq_true, beq_iff_eq] at hpred
    have hxu : x.userId = uid := huniq x hx1 hpred.1 hpred.2
    simp [hxu, hpred.2] at hx2
  refine ⟨?_, ?_, ?_⟩
  · simp [authenticateRefreshToken, hnone]
  · intro t2 h2 h2u h2t hmem
    rw [hstore] at hmem
    simp only [List.mem_filter] at hmem
    simp [h2u, h2t] at hmem
  · intro t2 h2 hnot
    rw [hstore]
    simp only [List.mem_filter]
    refine ⟨h2, ?_⟩
    rcases not_and_or.mp hnot with h | h <;> simp [h]

/-- Witness for C7: after alice changes her password in the example store,
her stored refresh token no longer authenticates. -/
theorem changePassword_revokes_refresh_witness :
    (authenticateRefreshToken
        (changePassword (fun a b => a == b) (fun s => s) exStore 1 "h1" "newpass123").1
        (some "r1") 50).2 = .error ⟨"Invalid refresh token.", 401⟩ :=
  (changePassword_revokes_refresh (fun a b => a == b) (fun s => s) exStore 1 "h1" "newpass123"
      exRefreshTok 50 rfl (by decide) rfl rfl (by decide)).1

/-- C4: when the token carries no tenant identifier, authentication
succeeds for an active principal and its candidate role set consists of
exactly the global roles referenced by any of the grants of the principal,
tenant-scoped or global. -/
theorem globalScope_candidate_roles (st : Store) (d : Decoded) (u : User)
    (hu : findUser st d.id = some u) (hstatus : u.status = "active")
    (hnone : d.serviceId = none) :
    ∃ ctx, authenticate st d = .ok ctx ∧ ctx.user = u ∧
      ∀ r : Role, r ∈ ctx.userRoles ↔
        (r ∈ st.roles ∧ r.isGlobal = true ∧
          ∃ us ∈ st.userServices, us.userId = u.id ∧ r.id ∈ us.roles) := by
  refine ⟨⟨u, none, none, globalRolesOf st u.id⟩, ?_, rfl, ?_⟩
  · simp [authenticate, hu, hnone, hstatus]
  · intro r
    show r ∈ globalRolesOf st u.id ↔ _
    unfold globalRolesOf distinctGrantRoles
    rw [List.mem_filter]
    simp only [Bool.and_eq_true, List.contains_eq_any_beq, List.any_eq_true,
      List.mem_flatten, List.mem_map, List.mem_filter, beq_iff_eq]
    constructor
    · rintro ⟨hr, ⟨x, ⟨l, ⟨us, ⟨hus, husu⟩, hmap⟩, hxl⟩, hid⟩, hg⟩
      subst hmap
      subst hid
      exact ⟨hr, hg, us, hus, by simpa using husu, hxl⟩
    · rintro ⟨hr, hg, us, hus, husu, hmem⟩
      exact ⟨hr, ⟨r.id, ⟨us.roles, ⟨us, ⟨hus, by simpa using husu⟩, rfl⟩, hmem⟩, rfl⟩, hg⟩

/-- Witness for C4: alice authenticated with no tenant in the token gets
exactly the global roles reachable through her two grants. -/
theorem globalScope_candidate_roles_witness :
    ∃ ctx, authenticate exStore ⟨1, none⟩ = .ok ctx ∧ ctx.user = exAlice ∧
      ∀ r : Role, r ∈ ctx.userRoles ↔
        (r ∈ exStore.roles ∧ r.isGlobal = true ∧
          ∃ us ∈ exStore.userServices, us.userId = exAlice.id ∧ r.id ∈ us.roles) :=
  globalScope_candidate_roles exStore ⟨1, none⟩ exAlice rfl rfl rfl

/-- C1: authentication succeeds only when the embedded principal resolves
to an existing active user and, when a tenant is carried, only when that
tenant exists and is active and an active grant links the pair; each
failing check produces the corresponding 401 or 403 error. -/
theorem authenticate_checks (st : Store) (d : Decoded) :
    (∀ ctx, authenticate st d = .ok ctx →
      findUser st d.id = some ctx.user ∧ ctx.user.status = "active" ∧
      (∀ sid, d.serviceId = some sid →
        ∃ s us, findService st sid = some s ∧ s.active = true ∧
          findUserService st ctx.user.id (some s.id) = some us ∧ us.status = "active"))
    ∧ (findUser st d.id = none →
        authenticate st d = .error ⟨"User not found or token is invalid.", 401⟩)
    ∧ (∀ u, findUser st d.id = some u → u.status ≠ "active" →
        authenticate st d = .error ⟨"User account is not active.", 403⟩)
    ∧ (∀ u sid s, findUser st d.id = some u → u.status = "active" →
        d.serviceId = some sid → findService st sid = some s → s.active = false →
        authenticate st d = .error ⟨"Service is not active.", 403⟩)
    ∧ (∀ u sid s, findUser st d.id = some u → u.status = "active" →
        d.serviceId = some sid → findService st sid = some s → s.active = true →
        findUserService st u.id (some s.id) = none →
        authenticate st d = .error ⟨"User does not have access to this service.", 403⟩)
    ∧ (∀ u sid s us, findUser st d.id = some u → u.status = "active" →
        d.serviceId = some sid → findService st sid = some s → s.active = true →
        findUserService st u.id (some s.id) = some us → us.status ≠ "active" →
        authenticate st d = .error ⟨"User access to this service is not active.", 403⟩) := by
  refine ⟨?_, ?_, ?_, ?_, ?_, ?_⟩
  · intro ctx hok
    cases hu : findUser st d.id with
    | none => simp [authenticate, hu] at hok
    | some u =>
    by_cases hst2 : u.status = "active"
    case neg => simp [authenticate, hu, hst2] at hok
    case pos =>
    cases hd : d.serviceId with
    | none =>
      have hok2 : Except.ok (ε := APIError) (⟨u, none, none, globalRolesOf st u.id⟩ : AuthCtx) =
          .ok ctx := by
        rw [← hok]
        simp [authenticate, hu, hst2, hd]
      injection hok2 with h
      subst h
      refine ⟨rfl, hst2, ?_⟩
      intro sid hsid
      simp at hsid
    | some sid =>
      cases hs : findService st sid with
      | none => simp [authenticate, hu, hst2, hd, hs] at hok
      | some s =>
      cases hact : s.active with
      | false => simp [authenticate, hu, hst2, hd, hs, hact] at hok
      | true =>
      cases hg : findUserService st u.id (some s.id) with
      | none => simp [authenticate, hu, hst2, hd, hs, hact, hg] at hok
      | some us =>
      by_cases hgs : us.status = "active"
      case neg => simp [authenticate, hu, hst2, hd, hs, hact, hg, hgs] at hok
      case pos =>
      have hok2 : Except.ok (ε := APIError) (⟨u, some s, some us, rolesOf st us.roles⟩ : AuthCtx) =
          .ok ctx := by
        rw [← hok]
        simp [authenticate, hu, hst2, hd, hs, hact, hg, hgs]
      injection hok2 with h
      subst h
      refine ⟨rfl, hst2, ?_⟩
      intro sid2 hsid2
      injection hsid2 with h2
      subst h2
      exact ⟨s, us, hs, hact, hg, hgs⟩
  · intro hu
    simp [authenticate, hu]
  · intro u hu hst2
    simp [authenticate, hu, hst2]
  · intro u sid s hu hst2 hd hs hact
    simp [authenticate, hu, hst2, hd, hs, hact]
  · intro u sid s hu hst2 hd hs hact hg
    simp [authenticate, hu, hst2, hd, hs, hact, hg]
  · intro u sid s us hu hst2 hd hs hact hg hgs
    simp [authenticate, hu, hst2, hd, hs, hact, hg, hgs]

/-- Witness for C1: alice with a billing-tenant token authenticates, and
the success conditions hold at that concrete input; bob, who is still
pending, is rejected with 403. -/
theorem authenticate_checks_witness :
    (findUser exStore 1 = some exAlice ∧ exAlice.status = "active" ∧
      (∀ sid, (some 10 : Option Nat) = some sid →
        ∃ s us, findService exStore sid = some s ∧ s.active = true ∧
          findUserService exStore exAlice.id (some s.id) = some us ∧ us.status = "active"))
    ∧ authenticate exStore ⟨2, none⟩ = .error ⟨"User account is not active.", 403⟩ :=
  ⟨(authenticate_checks exStore ⟨1, some 10⟩).1 exCtxBilling rfl,
   (authenticate_checks exStore ⟨2, none⟩).2.2.1 exBob rfl (by decide)⟩

/-- Counterexample for C3: alice exchanges her stored, unexpired refresh
token successfully, yet the token record is still in the store afterwards
and a second exchange with the same value succeeds again instead of
reporting the not-found error — the exchange does not consume the
credential. -/
theorem refresh_consume_not_destructive_cex :
    ((refreshTokenExchange exStore (some "r1") 50).2 = .ok ⟨1, "alice", none⟩)
    ∧ ((refreshTokenExchange exStore (some "r1") 50).1 = exStore)
    ∧ (exRefreshTok ∈ (refreshTokenExchange exStore (some "r1") 50).1.tokens)
    ∧ ((refreshTokenExchange ((refreshTokenExchange exStore (some "r1") 50).1)
          (some "r1") 50).2 = .ok ⟨1, "alice", none⟩) := by
  refine ⟨rfl, rfl, ?_, rfl⟩
  show exRefreshTok ∈ exStore.tokens
  exact List.mem_cons_self _ _

/-- Store component of a successful refresh-token middleware run: the
middleware only deletes the token document when it is expired or its user
is missing, so success leaves the store untouched. -/
theorem authenticateRefreshToken_ok_store (st : Store) (v : String) (now : Nat)
    (st2 : Store) (ctx : RefreshCtx)
    (h : authenticateRefreshToken st (some v) now = (st2, .ok ctx)) : st2 = st := by
  cases hf : findRefreshToken st v with
  | none => simp [authenticateRefreshToken, hf] at h
  | some tok =>
  by_cases hexp : tok.expiresAt < now
  · simp [authenticateRefreshToken, hf, hexp] at h
  · cases hu2 : findUser st tok.userId with
    | none => simp [authenticateRefreshToken, hf, hexp, hu2] at h
    | some user =>
    by_cases hstat : user.status = "active"
    · simp [authenticateRefreshToken, hf, hexp, hu2, hstat, Prod.ext_iff] at h
      exact h.1.symm
    · simp [authenticateRefreshToken, hf, hexp, hu2, hstat] at h

/-- C3 (amended): a successful refresh-token exchange is not destructive —
it leaves the store (in particular the consumed refresh credential)
unchanged, so a second exchange with the same token value succeeds with the
same result; the token record is deleted only on the expiry and
missing-user paths. -/
theorem refresh_exchange_preserves_store (st : Store) (v : String) (now : Nat)
    (tok : AccessToken)
    (h : (refreshTokenExchange st (some v) now).2 = .ok tok) :
    ((refreshTokenExchange st (some v) now).1 = st)
    ∧ ((refreshTokenExchange ((refreshTokenExchange st (some v) now).1)
          (some v) now).2 = .ok tok) := by
  obtain ⟨st2, res, hA⟩ :
      ∃ st2 res, authenticateRefreshToken st (some v) now = (st2, res) := ⟨_, _, rfl⟩
  cases res with
  | error e => simp [refreshTokenExchange, hA] at h
  | ok ctx =>
    have hst : st2 = st := authenticateRefreshToken_ok_store st v now st2 ctx hA
    have hex : refreshTokenExchange st (some v) now =
        (st2, .ok (generateToken ctx.user (ctx.service.map (fun s => s.id)))) := by
      simp [refreshTokenExchange, hA]
    constructor
    · rw [hex]
      exact hst
    · rw [hex]
      simp only [hst]
      rw [hex] at h ⊢
      exact h

/-- Witness for the amended C3: the concrete double exchange of the example
refresh token, both runs succeeding on the unchanged store. -/
theorem refresh_exchange_preserves_store_witness :
    ((refreshTokenExchange exStore (some "r1") 50).1 = exStore)
    ∧ ((refreshTokenExchange ((refreshTokenExchange exStore (some "r1") 50).1)
          (some "r1") 50).2 = .ok ⟨1, "alice", none⟩) :=
  refresh_exchange_preserves_store exStore "r1" 50 ⟨1, "alice", none⟩ rfl

/-- Counterexample for C6: the audit wrapper stores the refresh token from
the refresh-token request body unredacted, and stores the reset-token value
that the forgot-password controller places in its response body unredacted
— so tokens and secrets do reach the stored detail payload. -/
theorem audit_redaction_misses_tokens_cex :
    ((forgotPassword exStore (some "alice@x.com") none 310 "pr1" 1000).2 = .ok exForgotResp)
    ∧ (Field.mk "refreshToken" "r1" ∈
        (((auditLogger "user:refresh_token" exRefreshReq 200 none false
            exStore).1.auditLogs).headD exEmptyEntry).detailsBody)
    ∧ ((((auditLogger "user:forgot_password" exForgotReq 200 (some exForgotResp) false
            exStore).1.auditLogs).headD exEmptyEntry).detailsResponse = some exForgotResp)
    ∧ (Field.mk "resetToken" "pr1" ∈ exForgotResp.fields) := by
  refine ⟨rfl, ?_, rfl, ?_⟩ <;> decide

/-- C6 (amended): the audit redaction removes exactly the enumerated keys —
password, confirmPassword, currentPassword, newPassword and apiSecret from
the stored request body; token, refreshToken and apiSecret from the stored
response top level; and password from the nested response user object — so
every freshly appended audit entry is free of those particular keys (other
credential-bearing keys are not stripped). -/
theorem audit_redaction_fixed_keys (action : String) (req : AuditReq) (sc : Nat)
    (data : Option ResponseData) (writeFails : Bool) (st : Store) (e : AuditLog)
    (he : e ∈ (auditLogger action req sc data writeFails st).1.auditLogs)
    (hnew : e ∉ st.auditLogs) :
    (∀ f ∈ e.detailsBody, ¬(f.key ∈ sensitiveBodyKeys))
    ∧ (∀ d2, e.detailsResponse = some d2 →
        (∀ f ∈ d2.fields, ¬(f.key ∈ sensitiveResponseKeys))
        ∧ (∀ uo, d2.user = some uo → ∀ f ∈ uo, f.key ≠ "password")) := by
  by_cases hsc : 200 ≤ sc ∧ sc < 300
  case neg =>
    have hid : (auditLogger action req sc data writeFails st).1 = st := by
      simp [auditLogger, hsc]
    rw [hid] at he
    exact absurd he hnew
  case pos =>
  cases writeFails with
  | true =>
    have hid : (auditLogger action req sc data true st).1 = st := by
      simp [auditLogger, hsc]
    rw [hid] at he
    exact absurd he hnew
  | false =>
  have hlogs : (auditLogger action req sc data false st).1.auditLogs =
      st.auditLogs ++ [⟨req.user, req.service, action, req.method, req.path, sc,
        req.params, req.query, redactBody req.body, data.map redactResponse⟩] := by
    simp [auditLogger, hsc]
  rw [hlogs, List.mem_append] at he
  rcases he with he | he
  · exact absurd he hnew
  · rw [List.mem_singleton] at he
    subst he
    constructor
    · intro f hf
      simp only [redactBody, List.mem_filter] at hf
      simpa using hf.2
    · intro d2 hd2
      cases data with
      | none => simp at hd2
      | some d0 =>
      simp only [Option.map_some'] at hd2
      injection hd2 with hd2
      subst hd2
      constructor
      · intro f hf
        simp only [redactResponse, List.mem_filter] at hf
        simpa using hf.2
      · intro uo huo f hf
        simp only [redactResponse] at huo
        cases hu0 : d0.user with
        | none => rw [hu0] at huo; simp at huo
        | some u0 =>
        rw [hu0] at huo
        simp only [Option.map_some'] at huo
        injection huo with huo
        subst huo
        rw [List.mem_filter] at hf
        simpa using hf.2

/-- Witness for the amended C6: the password field of the login request
body never reaches the stored audit entry of the example login. -/
theorem audit_redaction_fixed_keys_witness :
    Field.mk "password" "pw" ∉ exLoginEntry.detailsBody := fun hmem =>
  ((audit_redaction_fixed_keys "user:login" exLoginReq 200 (some exLoginResp) false
      exStore exLoginEntry (by decide) (by decide)).1 (Field.mk "password" "pw") hmem)
    (by decide)

end TOC
